import Mathlib

/-!
Verification of the Eurorack module designer core (3DRack): the
schema-driven validation/normalization layer of `ModuleDesignService` and
`ProjectManagementService`, and the 2D-percentage-to-3D placement
projection (`create3DModel` / `_addControlTo3DModel`).

JavaScript dynamic values are embedded as `JsVal`; JS numbers are modelled
as rationals (no NaN/Infinity arise in the fragments verified here);
a thrown JS exception is modelled as `Except.error`.
-/

namespace ThreeDRack

/-- A JavaScript value, as far as the validation layer can observe it:
`undefined`, `null`, booleans, numbers (as `ℚ`), strings, and plain objects
(association lists of string keys). -/
inductive JsVal where
  | undefined : JsVal
  | null : JsVal
  | bool (b : Bool) : JsVal
  | num (q : ℚ) : JsVal
  | str (s : String) : JsVal
  | obj (fields : List (String × JsVal)) : JsVal

/-- JS `typeof`.  Note `typeof null` is `"object"`, and `typeof` of an
array is also `"object"` (arrays are objects). -/
def jsTypeof : JsVal → String
  | .undefined => "undefined"
  | .null => "object"
  | .bool _ => "boolean"
  | .num _ => "number"
  | .str _ => "string"
  | .obj _ => "object"

/-- `value === undefined || value === null`. -/
def isNullish : JsVal → Bool
  | .undefined => true
  | .null => true
  | _ => false

/-- JS truthiness: `undefined`, `null`, `false`, `0` and `""` are falsy. -/
def jsTruthy : JsVal → Bool
  | .undefined => false
  | .null => false
  | .bool b => b
  | .num q => !(decide (q = 0))
  | .str s => !(decide (s = ""))
  | .obj _ => true

/-- JS `a || b` (value-returning disjunction). -/
def jsOr (a b : JsVal) : JsVal := if jsTruthy a then a else b

/-- Key lookup in an object literal; a missing key reads as `undefined`. -/
def lookupField (fields : List (String × JsVal)) (k : String) : JsVal :=
  match fields.find? (fun f => f.1 == k) with
  | some f => f.2
  | none => .undefined

/-- JS property read `v[k]`.  Reading a property of `undefined` or `null`
throws a `TypeError`; reading an absent key of an object yields
`undefined`; property reads on other primitives yield `undefined` for the
keys used here (the power-rail names are not primitive properties). -/
def jsGet (v : JsVal) (k : String) : Except String JsVal :=
  match v with
  | .undefined => .error ("TypeError: cannot read " ++ k ++ " of undefined")
  | .null => .error ("TypeError: cannot read " ++ k ++ " of null")
  | .obj fields => .ok (lookupField fields k)
  | _ => .ok .undefined

/-- JS `Math.round`: rounds half-way cases toward positive infinity. -/
def jsRound (q : ℚ) : ℤ := (q + 1/2).floor

/-- JS `String.prototype.trim`: strips leading and trailing whitespace
(defined structurally over the character list so that it evaluates by
reduction; `String.trim` in core is extensionally the same function). -/
def jsTrim (s : String) : String :=
  ⟨((s.data.dropWhile Char.isWhitespace).reverse.dropWhile Char.isWhitespace).reverse⟩

/-- JS `value < bound` as evaluated by the rule engine.  The schemas only
attach `min`/`max` to fields whose `type: 'number'` check has already
passed, so only the number case is ever exercised. -/
def jsNumLt (v : JsVal) (bound : ℚ) : Bool :=
  match v with
  | .num q => decide (q < bound)
  | _ => false

/-- JS `value > bound` (see `jsNumLt`). -/
def jsNumGt (v : JsVal) (bound : ℚ) : Bool :=
  match v with
  | .num q => decide (bound < q)
  | _ => false

/-- The `{isValid, errors}` result object returned by every validator. -/
structure ValidationResult where
  isValid : Bool
  errors : List String
deriving DecidableEq

/-- The service-level constants installed in the `ModuleDesignService`
constructor (`this._standards`). -/
structure Standards where
  hpUnit : ℚ
  standardHeight : ℚ
  maxWidth : ℚ
  powerConnectors : List String

/-- The `_standards` object of the singleton service:
`{hpUnit: 5.08, standardHeight: 128.5, maxWidth: 42*5.08,
powerConnectors: ['+12V','-12V','+5V']}`. -/
def initStandards : Standards :=
  { hpUnit := 508/100
    standardHeight := 257/2
    maxWidth := 42 * (508/100)
    powerConnectors := ["+12V", "-12V", "+5V"] }

/-- One entry of a validation schema (`this._moduleSchema[key]`).  The
module-service rule engine reads `required`, `type`, `min`, `max` and
`validator`; `minLength`/`maxLength` are declared in the schema object but
the module-service engine never reads them (it has no length checks). -/
structure FieldSchema where
  required : Bool := false
  type : Option String := none
  minLength : Option ℕ := none
  maxLength : Option ℕ := none
  min : Option ℚ := none
  max : Option ℚ := none
  validator : Option (JsVal → Except String ValidationResult) := none

/-- `_validatePowerDraw` body for a single rail: `const draw =
powerDraw[rail] || 0;` followed by the number/negative/maximum checks.
The property read throws when `powerDraw` is `undefined` or `null`. -/
def powerRailErrors (powerDraw : JsVal) (rail : String) : Except String (List String) :=
  match jsGet powerDraw rail with
  | .error e => .error e
  | .ok v =>
    match jsOr v (.num 0) with
    | .num q =>
        .ok ((if q < 0 then ["Power draw for " ++ rail ++ " cannot be negative"] else []) ++
             (if q > 500 then ["Power draw for " ++ rail ++ " cannot exceed 500mA"] else []))
    | _ => .ok ["Power draw for " ++ rail ++ " must be a number"]

/-- The `forEach` over `this._standards.powerConnectors` in
`_validatePowerDraw`, accumulating rail errors; an exception aborts the
whole traversal. -/
def railsErrors (powerDraw : JsVal) : List String → Except String (List String)
  | [] => .ok []
  | rail :: rest =>
    match powerRailErrors powerDraw rail with
    | .error e => .error e
    | .ok errs =>
      match railsErrors powerDraw rest with
      | .error e => .error e
      | .ok more => .ok (errs ++ more)

/-- `ModuleDesignService._validatePowerDraw` (the custom validator wired
into the `powerDraw` schema entry). -/
def _validatePowerDraw (std : Standards) (powerDraw : JsVal) : Except String ValidationResult :=
  match railsErrors powerDraw std.powerConnectors with
  | .error e => .error e
  | .ok errs => .ok { isValid := errs.isEmpty, errors := errs }

/-- One iteration of the `Object.keys(schema).forEach` loop of
`_validateModuleSpec`: required check (with early `return`), type check
(with early `return`), `min`/`max` checks, then the custom validator,
whose errors are appended when its `isValid` is false. -/
def validateFieldM (fs : FieldSchema) (key : String) (value : JsVal) : Except String (List String) :=
  if fs.required && isNullish value then
    .ok [key ++ " is required"]
  else if (match fs.type with | some t => jsTypeof value != t | none => false) then
    .ok [key ++ " must be of type " ++ (match fs.type with | some t => t | none => "")]
  else
    let minErrs := match fs.min with
      | some mn => if jsNumLt value mn then [key ++ " must be at least " ++ toString mn] else []
      | none => []
    let maxErrs := match fs.max with
      | some mx => if jsNumGt value mx then [key ++ " must be at most " ++ toString mx] else []
      | none => []
    match fs.validator with
    | some f =>
      match f value with
      | .error e => .error e
      | .ok r => .ok (minErrs ++ maxErrs ++ (if r.isValid then [] else r.errors))
    | none => .ok (minErrs ++ maxErrs)

/-- The full schema traversal: fields are visited in insertion order,
errors accumulate across fields, and an exception thrown while checking
one field aborts the whole validation. -/
def collectFieldErrors (get : String → JsVal) : List (String × FieldSchema) → Except String (List String)
  | [] => .ok []
  | (key, fs) :: rest =>
    match validateFieldM fs key (get key) with
    | .error e => .error e
    | .ok errs =>
      match collectFieldErrors get rest with
      | .error e => .error e
      | .ok more => .ok (errs ++ more)

/-- A raw module specification as handed to `createModule`.  The fields
the service reads are the five schema keys plus `controls`/`images`
(picked up by normalization).  `hpWidth` and `volumeCm3` model
user-supplied values for the derived fields: the service never reads
them (validation iterates over schema keys only, and normalization copies
a fixed field list). -/
structure Control where
  type : String
  x : ℚ
  y : ℚ
deriving DecidableEq

structure ModuleSpecInput where
  name : JsVal := .undefined
  width : JsVal := .undefined
  height : JsVal := .undefined
  depth : JsVal := .undefined
  powerDraw : JsVal := .undefined
  controls : Option (List Control) := none
  images : Option (List String) := none
  hpWidth : JsVal := .undefined
  volumeCm3 : JsVal := .undefined

/-- The `moduleSpec[key]` reads performed by the schema loop (only the
five schema keys are ever looked up). -/
def ModuleSpecInput.get (spec : ModuleSpecInput) : String → JsVal
  | "name" => spec.name
  | "width" => spec.width
  | "height" => spec.height
  | "depth" => spec.depth
  | "powerDraw" => spec.powerDraw
  | _ => .undefined

/-- `this._moduleSchema`, in insertion order. -/
def _moduleSchema (std : Standards) : List (String × FieldSchema) :=
  [ ("name", { required := true, type := some "string",
               minLength := some 1, maxLength := some 50 }),
    ("width", { required := true, type := some "number", min := some 2, max := some 42 }),
    ("height", { required := true, type := some "number", min := some 100, max := some 150 }),
    ("depth", { required := true, type := some "number", min := some 20, max := some 45 }),
    ("powerDraw", { validator := some (_validatePowerDraw std) }) ]

/-- `ModuleDesignService._validateModuleSpec`. -/
def _validateModuleSpec (std : Standards) (spec : ModuleSpecInput) : Except String ValidationResult :=
  match collectFieldErrors spec.get (_moduleSchema std) with
  | .error e => .error e
  | .ok errs => .ok { isValid := errs.isEmpty, errors := errs }

/-- The normalized `powerDraw` record (`{'+12V': …, '-12V': …, '+5V': …}`). -/
structure PowerDraw where
  p12 : JsVal
  m12 : JsVal
  p5 : JsVal

/-- The record built by `_normalizeModuleSpec` (before the derived fields
are attached by `createModule`). -/
structure ModuleN where
  name : String
  width : ℤ
  height : ℤ
  depth : ℤ
  powerDraw : PowerDraw
  controls : List Control
  images : List String

/-- Field read used by normalization on a value already known to be
truthy (so no `TypeError` can occur): `powerDraw[rail] || 0`. -/
def normRail (powerDraw : JsVal) (rail : String) : JsVal :=
  match powerDraw with
  | .obj fields => jsOr (lookupField fields rail) (.num 0)
  | _ => jsOr .undefined (.num 0)

/-- `ModuleDesignService._normalizeModuleSpec`.  `name.trim()` and
`Math.round` require a string / numbers; the `none` cases model the
`TypeError`/`NaN` outcomes that validation (which runs first) rules out. -/
def _normalizeModuleSpec (spec : ModuleSpecInput) : Option ModuleN :=
  match spec.name, spec.width, spec.height, spec.depth with
  | .str n, .num w, .num h, .num d =>
    some { name := jsTrim n
           width := jsRound w
           height := jsRound h
           depth := jsRound d
           powerDraw :=
             if jsTruthy spec.powerDraw then
               { p12 := normRail spec.powerDraw "+12V"
                 m12 := normRail spec.powerDraw "-12V"
                 p5 := normRail spec.powerDraw "+5V" }
             else { p12 := .num 0, m12 := .num 0, p5 := .num 0 }
           controls := spec.controls.getD []
           images := spec.images.getD [] }
  | _, _, _, _ => none

/-- A validated module record: the normalized fields plus the derived
properties attached by `createModule`. -/
structure Module extends ModuleN where
  hpWidth : ℚ
  volumeCm3 : ℚ

/-- `ModuleDesignService._calculateVolume`. -/
def _calculateVolume (std : Standards) (m : ModuleN) : ℚ :=
  (m.width : ℚ) * std.hpUnit * (m.height : ℚ) / 10 * (m.depth : ℚ) / 10

/-- `ModuleDesignService.createModule`: validate, bail out (returning
`null`, via the `catch`) on a validation exception or an invalid spec,
otherwise normalize and attach the derived `hpWidth`/`volumeCm3`. -/
def createModule (std : Standards) (spec : ModuleSpecInput) : Option Module :=
  match _validateModuleSpec std spec with
  | .error _ => none
  | .ok r =>
    if r.isValid then
      match _normalizeModuleSpec spec with
      | some n =>
        some { toModuleN := n
               hpWidth := (n.width : ℚ) * std.hpUnit
               volumeCm3 := _calculateVolume std n }
      | none => none
    else none

/-- A THREE.js geometry descriptor, as produced by the projector:
`CylinderGeometry(rTop, rBot, h, seg)` or `BoxGeometry(w, h, d)`. -/
inductive Geometry where
  | cylinder (rTop rBot h : ℚ) (seg : ℕ) : Geometry
  | box (w h d : ℚ) : Geometry
deriving DecidableEq

/-- A mesh added to the module group: geometry, material color, and the
position set by `mesh.position.set(x, y, z)` (the panel keeps the default
origin position). -/
structure Mesh where
  geometry : Geometry
  color : ℕ
  position : ℚ × ℚ × ℚ
deriving DecidableEq

/-- `const x = (control.x / 100 * width) - (width / 2);` -/
def projPosX (xPct widthMm : ℚ) : ℚ := xPct / 100 * widthMm - widthMm / 2

/-- `const y = (height / 2) - (control.y / 100 * height);` -/
def projPosY (yPct heightMm : ℚ) : ℚ := heightMm / 2 - yPct / 100 * heightMm

/-- `const z = module.depth / 2 + 1;` -/
def projPosZ (depthMm : ℚ) : ℚ := depthMm / 2 + 1

/-- The `(x, y, z)` computed at the top of `_addControlTo3DModel`, with
`width = module.width * this._standards.hpUnit` and `height =
module.height`. -/
def controlPos (std : Standards) (m : Module) (c : Control) : ℚ × ℚ × ℚ :=
  (projPosX c.x ((m.width : ℚ) * std.hpUnit),
   projPosY c.y (m.height : ℚ),
   projPosZ (m.depth : ℚ))

/-- The `switch (control.type)` of `_addControlTo3DModel`: the mesh built
for a recognized control type at the projected position, `none` for the
`default:` branch (unrecognized types produce nothing). -/
def controlMesh (std : Standards) (m : Module) (c : Control) : Option Mesh :=
  if c.type = "knob" then
    some { geometry := .cylinder 4 4 6 16, color := 0x666666, position := controlPos std m c }
  else if c.type = "jack" then
    some { geometry := .cylinder 3 3 8 16, color := 0x000000, position := controlPos std m c }
  else if c.type = "switch" then
    some { geometry := .box 6 12 4, color := 0x444444, position := controlPos std m c }
  else none

/-- `ModuleDesignService._addControlTo3DModel`: appends the control mesh
to the group, or returns with the group untouched for an unrecognized
type. -/
def _addControlTo3DModel (std : Standards) (group : List Mesh) (c : Control) (m : Module) : List Mesh :=
  match controlMesh std m c with
  | some mesh => group ++ [mesh]
  | none => group

/-- `ModuleDesignService.create3DModel`: validate/normalize via
`createModule` (returning `null` on failure), build the panel mesh, then
add each control in list order. -/
def create3DModel (std : Standards) (spec : ModuleSpecInput) : Option (List Mesh) :=
  match createModule std spec with
  | none => none
  | some m =>
    let panel : Mesh :=
      { geometry := .box ((m.width : ℚ) * std.hpUnit) (m.height : ℚ) 2
        color := 0x333333
        position := (0, 0, 0) }
    some (m.controls.foldl (fun g c => _addControlTo3DModel std g c m) [panel])

/-- The instance state of the `ModuleDesignService` singleton.  Its only
fields are the constants of `_standards` and the schema (derived from
them); no method ever assigns to an instance field. -/
structure ServiceState where
  standards : Standards

/-- A call to `create3DModel` as a state transition on the service
singleton: the method only reads `this._standards`, so the state comes
back unchanged alongside the produced group. -/
def create3DModelCall (st : ServiceState) (spec : ModuleSpecInput) :
    Option (List Mesh) × ServiceState :=
  (create3DModel st.standards spec, st)

/-- `metadata` of a stored project (all three fields are timestamps or
counters produced by the system; `Date.now()` values are modelled as
naturals). -/
structure ProjMeta where
  createdAt : ℕ
  updatedAt : ℕ
  version : ℕ
deriving DecidableEq

/-- The per-rail capacities of `rack.powerSupply`. -/
structure PowerSupply where
  p12 : ℚ
  m12 : ℚ
  p5 : ℚ
deriving DecidableEq

/-- The normalized `rack` record of a stored project. -/
structure Rack where
  width : ℤ
  powerSupply : PowerSupply
deriving DecidableEq

/-- A stored project record, as serialized to local storage by
`_saveProject` (the shape produced by `_normalizeProjectSpec` plus the
assigned `id`). -/
structure Project where
  id : String
  name : String
  description : String
  modules : List Module
  rack : Rack
  metadata : ProjMeta

/-- `ProjectManagementService._validateProjectSpec` applied to a stored
project record.  Field order follows `this._projectSchema`: `name`
(required, string, length 1..100), `description` (optional string, max
500), `modules` (required, `type: 'array'`), `rack` and `metadata` (whose
schema entries carry no top-level rules, so the engine checks nothing for
them).  The `modules` type check compares `typeof value` with the string
`'array'`; `typeof` of a JS array is `"object"`, so this check fails for
every array value and short-circuits the per-module validation. -/
def validateProjectRecord (p : Project) : ValidationResult :=
  let nameErrs :=
    (if p.name.length < 1 then ["name must be at least 1 characters"] else []) ++
    (if p.name.length > 100 then ["name must be at most 100 characters"] else [])
  let descErrs :=
    if p.description.length > 500 then ["description must be at most 500 characters"] else []
  let modulesErrs :=
    if jsTypeof (.obj []) != "array" then ["modules must be of type array"] else []
  let errs := nameErrs ++ descErrs ++ modulesErrs
  { isValid := errs.isEmpty, errors := errs }

/-- The fields a caller may pass in the `updates` argument of
`updateProject`; `metadata` models a user-supplied value for the derived
metadata (overridden by the merge). -/
structure ProjectUpdates where
  name : Option String := none
  description : Option String := none
  modules : Option (List Module) := none
  rack : Option Rack := none
  metadata : Option ProjMeta := none

/-- The merge step of `updateProject` (lines 335–343):
`{...project, ...updates, metadata: {...project.metadata, updatedAt:
Date.now(), version: (project.metadata.version || 0) + 1}}`.  The
`metadata:` entry is written after the `...updates` spread, so any
metadata supplied in `updates` is discarded; `createdAt` is copied from
the stored metadata.  `Date.now()` is passed in as `now`. -/
def mergeUpdate (p : Project) (u : ProjectUpdates) (now : ℕ) : Project :=
  { id := p.id
    name := u.name.getD p.name
    description := u.description.getD p.description
    modules := u.modules.getD p.modules
    rack := u.rack.getD p.rack
    metadata :=
      { createdAt := p.metadata.createdAt
        updatedAt := now
        version := (if p.metadata.version == 0 then 0 else p.metadata.version) + 1 } }

/-- `ProjectManagementService.getProjectById` over the stored project
list (the in-memory cache is kept coherent with storage by
`_saveProject`/`deleteProject`, so both lookups return the stored
record). -/
def getProjectById (s : List Project) (pid : String) : Option Project :=
  s.find? (fun p => p.id == pid)

/-- `ProjectManagementService._saveProject`: replace the project at the
first index with a matching id, or append. -/
def saveProject (s : List Project) (p : Project) : List Project :=
  match s.findIdx? (fun q => q.id == p.id) with
  | some i => s.set i p
  | none => s ++ [p]

/-- `ProjectManagementService.updateProject`: look up the stored project
(throwing, hence `none`, when absent), merge the updates with recomputed
metadata, validate the merged record, and save it; a validation failure
throws and the `catch` returns `null`. -/
def updateProject (s : List Project) (pid : String) (u : ProjectUpdates) (now : ℕ) :
    Option (Project × List Project) :=
  match getProjectById s pid with
  | none => none
  | some p =>
    let up := mergeUpdate p u now
    if (validateProjectRecord up).isValid then some (up, saveProject s up)
    else none

/-- `ProjectManagementService.getProjects`: the stored list sorted with
the comparator `(a, b) => b.metadata.updatedAt - a.metadata.updatedAt`
(an element precedes another when the comparator is ≤ 0, i.e. most
recently updated first). -/
def getProjects (s : List Project) : List Project :=
  s.mergeSort (fun a b =>
    decide ((b.metadata.updatedAt : ℤ) - (a.metadata.updatedAt : ℤ) ≤ 0))

/-- A raw project specification as handed to `createProject`.  `metadata`
models a user-supplied value for the system-assigned metadata; the
service never reads it. -/
structure RackInput where
  width : ℚ
  powerSupply : PowerSupply

structure ProjectSpecInput where
  name : String
  description : Option String := none
  modules : List ModuleSpecInput
  rack : RackInput
  metadata : Option ProjMeta := none

/-- The record built by `_normalizeProjectSpec` (before `createProject`
assigns `id`): note `modules` keeps the per-element `createModule`
results as they come (`null` for an invalid module). -/
structure NormalizedProject where
  name : String
  description : String
  modules : List (Option Module)
  rack : Rack
  metadata : ProjMeta

/-- `ProjectManagementService._normalizeProjectSpec`: trims the strings,
maps `createModule` over the modules, rounds the rack width, copies the
power supply rails, and assigns fresh metadata from `const now =
Date.now()` (passed in as `now`). -/
def _normalizeProjectSpec (std : Standards) (spec : ProjectSpecInput) (now : ℕ) :
    NormalizedProject :=
  { name := jsTrim spec.name
    description := jsTrim (spec.description.getD "")
    modules := spec.modules.map (createModule std)
    rack := { width := jsRound spec.rack.width, powerSupply := spec.rack.powerSupply }
    metadata := { createdAt := now, updatedAt := now, version := 1 } }

/-- The inverse mapping stated by the round-trip property:
`x% = (posX + widthMm/2) / widthMm × 100`. -/
def recoverXPct (posX widthMm : ℚ) : ℚ := (posX + widthMm / 2) / widthMm * 100

/-- The inverse mapping stated by the round-trip property:
`y% = (heightMm/2 − posY) / heightMm × 100`. -/
def recoverYPct (posY heightMm : ℚ) : ℚ := (heightMm / 2 - posY) / heightMm * 100

/-- A power-draw entry satisfying the documented input contract for one
rail: the rail is either absent or mapped to a number in `[0, 500]`. -/
def railOk (pd : List (String × JsVal)) (rail : String) : Prop :=
  lookupField pd rail = .undefined ∨
    ∃ q : ℚ, lookupField pd rail = .num q ∧ 0 ≤ q ∧ q ≤ 500

/-- A well-formed module spec that simply omits the optional `powerDraw`
field. -/
def specNoPowerDraw : ModuleSpecInput :=
  { name := .str "VCO", width := .num 8, height := .num (257/2), depth := .num 25 }

/-- A module spec with an empty `name` (and otherwise in-range fields):
the schema declares `minLength: 1` for `name`, but the engine has no
length checks. -/
def specEmptyName : ModuleSpecInput :=
  { name := .str "", width := .num 8, height := .num 120, depth := .num 30,
    powerDraw := .obj [] }

/-- A module spec with a 60-character name (`maxLength: 50` declared). -/
def specLongName : ModuleSpecInput :=
  { name := .str "AAAAAAAAAAAAAAAAAAAAAAAAAAAAAAAAAAAAAAAAAAAAAAAAAAAAAAAAAAAA",
    width := .num 8, height := .num 120, depth := .num 30, powerDraw := .obj [] }

/-- The module of the worked example: width 4 HP, height 128.5, depth 25,
one knob at (50, 50). -/
def specKnobCentered : ModuleSpecInput :=
  { name := .str "Test", width := .num 4, height := .num (257/2), depth := .num 25,
    powerDraw := .obj [], controls := some [{ type := "knob", x := 50, y := 50 }] }

/-- A concrete in-range module spec used to instantiate the universally
quantified theorems. -/
def demoAcceptedSpec : ModuleSpecInput :=
  { name := .str "Mixer", width := .num 10, height := .num 110, depth := .num 30,
    powerDraw := .obj [("+12V", .num 120)] }

/-- A concrete validated module record (the output of `createModule` on
`demoAcceptedSpec`). -/
def demoModule : Module :=
  { name := "Mixer", width := 10, height := 110, depth := 30,
    powerDraw := { p12 := .num 120, m12 := .num 0, p5 := .num 0 },
    controls := [], images := [],
    hpWidth := 10 * (508/100), volumeCm3 := 10 * (508/100) * 110 / 10 * 30 / 10 }

/-- A validated module used to instantiate the round-trip theorem. -/
def rtModule : Module :=
  { name := "Osc", width := 4, height := 129, depth := 25,
    powerDraw := { p12 := .num 0, m12 := .num 0, p5 := .num 0 },
    controls := [], images := [],
    hpWidth := 4 * (508/100), volumeCm3 := 4 * (508/100) * 129 / 10 * 25 / 10 }

/-- A knob control at (25%, 75%) on `rtModule`. -/
def rtControl : Control := { type := "knob", x := 25, y := 75 }

/-- The mesh `_addControlTo3DModel` produces for `rtControl` on
`rtModule`: position `(-127/25, -129/4, 27/2)`. -/
def rtMesh : Mesh :=
  { geometry := .cylinder 4 4 6 16, color := 0x666666,
    position := (-(127/25), -(129/4), 27/2) }

/-- A control with the unrecognized type `"slider"`. -/
def sliderControl : Control := { type := "slider", x := 10, y := 20 }

/-- A stored project with one valid module, used to exercise
`updateProject` concretely. -/
def demoProject : Project :=
  { id := "prj_1", name := "Rig", description := "",
    modules := [demoModule],
    rack := { width := 84, powerSupply := { p12 := 1000, m12 := 1000, p5 := 1000 } },
    metadata := { createdAt := 100, updatedAt := 100, version := 1 } }

/-- A concrete project spec for instantiating the normalization
theorems. -/
def demoProjectSpec : ProjectSpecInput :=
  { name := "Rig", modules := [demoAcceptedSpec],
    rack := { width := 84, powerSupply := { p12 := 1000, m12 := 1000, p5 := 1000 } } }

/-! ### Helper lemmas -/

/-- Inverting the horizontal projection (exact over `ℚ`). -/
theorem recover_projPosX (x w : ℚ) (hw : w ≠ 0) : recoverXPct (projPosX x w) w = x := by
  unfold recoverXPct projPosX
  field_simp
  ring

/-- Inverting the vertical projection (exact over `ℚ`). -/
theorem recover_projPosY (y h : ℚ) (hh : h ≠ 0) : recoverYPct (projPosY y h) h = y := by
  unfold recoverYPct projPosY
  field_simp
  ring

/-- `_addControlTo3DModel` appends exactly the optional mesh. -/
theorem addControl_eq_append (std : Standards) (group : List Mesh) (c : Control) (m : Module) :
    _addControlTo3DModel std group c m = group ++ (controlMesh std m c).toList := by
  unfold _addControlTo3DModel
  cases controlMesh std m c <;> simp

/-- Merged metadata never reads the stored version through `|| 0` in a way
that changes it: `(v || 0) + 1 = v + 1` over naturals. -/
theorem mergeUpdate_metadata (p : Project) (u : ProjectUpdates) (now : ℕ) :
    (mergeUpdate p u now).metadata =
      { createdAt := p.metadata.createdAt, updatedAt := now,
        version := p.metadata.version + 1 } := by
  unfold mergeUpdate
  by_cases h : p.metadata.version = 0 <;> simp [h]

/-- Every stored-shape project fails `_validateProjectSpec`: the `modules`
entry declares `type: 'array'` but `typeof` of an array is `"object"`. -/
theorem validateProjectRecord_never_valid (p : Project) :
    (validateProjectRecord p).isValid = false := by
  simp [validateProjectRecord, List.isEmpty_eq_false]
  intro _ _ _
  decide

/-! ### C1 -/

/-- C1: the claim says validating a module spec whose optional `powerDraw`
is absent terminates normally with a `{isValid, errors}` object.  The code
instead invokes `_validatePowerDraw(undefined)`, which reads
`undefined['+12V']` and throws a `TypeError`: `_validateModuleSpec` raises
instead of returning a result object. -/
theorem c1_validator_throws_on_absent_powerDraw :
    _validateModuleSpec initStandards specNoPowerDraw =
      .error "TypeError: cannot read +12V of undefined" := by
  with_unfolding_all rfl

/-! ### C3 -/

/-- C3: the claim says every accepted module spec normalizes to a name of
length in [1, 50].  The schema declares `minLength: 1` / `maxLength: 50`,
but the module-service engine has no length checks, so an empty name and a
60-character name are both accepted and survive normalization unchanged. -/
theorem c3_name_length_not_enforced :
    _validateModuleSpec initStandards specEmptyName = .ok { isValid := true, errors := [] } ∧
    (createModule initStandards specEmptyName).map (fun m => m.name.length) = some 0 ∧
    _validateModuleSpec initStandards specLongName = .ok { isValid := true, errors := [] } ∧
    (createModule initStandards specLongName).map (fun m => m.name.length) = some 60 := by
  refine ⟨?_, ?_, ?_, ?_⟩ <;> with_unfolding_all rfl

/-! ### C4 -/

/-- C4: for the module with width 4 HP (20.32 mm), height 128.5, depth 25
and a single knob at (50, 50), the projected control position is exactly
(0, 0, 13.5); the other mesh is the panel at the origin. -/
theorem c4_centered_knob_position :
    ((create3DModel initStandards specKnobCentered).getD []).map Mesh.position =
      [(0, 0, 0), (0, 0, 27/2)] := by
  with_unfolding_all rfl

/-! ### C7 -/

/-- C7: the claim presumes project updates can succeed (and then increment
`version` by 1).  In the code no update ever succeeds: `updateProject`
re-validates the merged project and `_validateProjectSpec` rejects every
`modules` array (`typeof` of an array is `"object"`, never the declared
`'array'`), so `updateProject` always returns `null` — shown first on a
concrete stored project with a benign rename, then for every input. -/
theorem c7_updateProject_never_succeeds :
    updateProject [demoProject] "prj_1" { name := some "Rig2" } 200 = none ∧
    ∀ (s : List Project) (pid : String) (u : ProjectUpdates) (now : ℕ),
      updateProject s pid u now = none := by
  have huniv : ∀ (s : List Project) (pid : String) (u : ProjectUpdates) (now : ℕ),
      updateProject s pid u now = none := by
    intro s pid u now
    unfold updateProject
    cases getProjectById s pid with
    | none => rfl
    | some p => simp [validateProjectRecord_never_valid]
  exact ⟨huniv _ _ _ _, huniv⟩

/-! ### C9 -/

/-- C9: projection to 3D is deterministic and touches no service state:
a `create3DModel` call leaves the singleton's state unchanged, and a
second call on the same unmodified spec returns the identical group. -/
theorem c9_create3DModel_deterministic (st : ServiceState) (spec : ModuleSpecInput) :
    (create3DModelCall st spec).2 = st ∧
    (create3DModelCall (create3DModelCall st spec).2 spec).1 =
      (create3DModelCall st spec).1 :=
  ⟨rfl, rfl⟩

/-! ### C10 -/

/-- C10: `getProjects` returns the stored projects sorted by
`metadata.updatedAt` in descending order (and is a permutation of the
stored list). -/
theorem c10_getProjects_sorted_desc (s : List Project) :
    (getProjects s).Pairwise
      (fun a b => b.metadata.updatedAt ≤ a.metadata.updatedAt) ∧
    (getProjects s).Perm s := by
  constructor
  · have h := @List.sorted_mergeSort Project
      (fun a b =>
        decide ((b.metadata.updatedAt : ℤ) - (a.metadata.updatedAt : ℤ) ≤ 0))
      (fun a b c hab hbc => by
        simp only [decide_eq_true_eq] at *
        omega)
      (fun a b => by
        simp only [Bool.or_eq_true, decide_eq_true_eq]
        omega)
      s
    exact h.imp (fun hab => by
      simp only [decide_eq_true_eq] at hab
      omega)
  · exact List.mergeSort_perm s _

/-! ### C6 -/

/-- C6: a control whose type is not `knob`/`jack`/`switch` is skipped:
`_addControlTo3DModel` returns the group untouched (no mesh, no error),
and the control loop of `create3DModel` places exactly the recognized
controls, in order. -/
theorem c6_unrecognized_control_skipped :
    (∀ (std : Standards) (group : List Mesh) (c : Control) (m : Module),
        c.type ≠ "knob" → c.type ≠ "jack" → c.type ≠ "switch" →
        controlMesh std m c = none ∧ _addControlTo3DModel std group c m = group) ∧
    (∀ (std : Standards) (m : Module) (controls : List Control) (group : List Mesh),
        controls.foldl (fun g c => _addControlTo3DModel std g c m) group =
          group ++ controls.filterMap (controlMesh std m)) := by
  constructor
  · intro std group c m h1 h2 h3
    have hmesh : controlMesh std m c = none := by
      unfold controlMesh
      simp [h1, h2, h3]
    exact ⟨hmesh, by simp [addControl_eq_append, hmesh]⟩
  · intro std m controls
    induction controls with
    | nil => intro group; simp
    | cons c cs ih =>
      intro group
      rw [List.foldl_cons, ih (_addControlTo3DModel std group c m),
        addControl_eq_append, List.filterMap_cons]
      cases controlMesh std m c <;> simp

/-- C6 witness: the `"slider"` control is skipped on a concrete module. -/
theorem c6_witness :
    controlMesh initStandards rtModule sliderControl = none ∧
    _addControlTo3DModel initStandards [] sliderControl rtModule = [] := by
  have h := c6_unrecognized_control_skipped.1 initStandards [] sliderControl rtModule
    (by decide) (by decide) (by decide)
  exact ⟨h.1, h.2⟩

/-! ### C8 -/

/-- C8: user-supplied values for derived fields are ignored and
recomputed: `createModule` ignores input `hpWidth`/`volumeCm3` and
recomputes them (`hpWidth = width × 5.08`), `_normalizeProjectSpec`
ignores input `metadata` and assigns fresh `{now, now, 1}`, and the merge
step of `updateProject` ignores `updates.metadata`, recomputing the
metadata from the stored project. -/
theorem c8_derived_fields_recomputed :
    (∀ (std : Standards) (spec : ModuleSpecInput) (v w : JsVal),
        createModule std { spec with hpWidth := v, volumeCm3 := w } = createModule std spec) ∧
    (∀ (std : Standards) (spec : ModuleSpecInput) (m : Module),
        createModule std spec = some m →
          m.hpWidth = (m.width : ℚ) * std.hpUnit ∧
          m.volumeCm3 = (m.width : ℚ) * std.hpUnit * (m.height : ℚ) / 10 * (m.depth : ℚ) / 10) ∧
    (∀ (std : Standards) (spec : ProjectSpecInput) (md : Option ProjMeta) (now : ℕ),
        _normalizeProjectSpec std { spec with metadata := md } now =
          _normalizeProjectSpec std spec now) ∧
    (∀ (std : Standards) (spec : ProjectSpecInput) (now : ℕ),
        (_normalizeProjectSpec std spec now).metadata =
          { createdAt := now, updatedAt := now, version := 1 }) ∧
    (∀ (p : Project) (u : ProjectUpdates) (m0 : ProjMeta) (now : ℕ),
        mergeUpdate p { u with metadata := some m0 } now = mergeUpdate p u now) ∧
    (∀ (p : Project) (u : ProjectUpdates) (now : ℕ),
        (mergeUpdate p u now).metadata =
          { createdAt := p.metadata.createdAt, updatedAt := now,
            version := p.metadata.version + 1 }) := by
  refine ⟨?_, ?_, ?_, ?_, ?_, ?_⟩
  · intro std spec v w
    cases spec
    rfl
  · intro std spec m hm
    unfold createModule at hm
    split at hm
    · exact absurd hm (by simp)
    · split at hm
      · split at hm
        · cases hm
          exact ⟨rfl, rfl⟩
        · exact absurd hm (by simp)
      · exact absurd hm (by simp)
  · intro std spec md now
    cases spec
    rfl
  · intro std spec now
    rfl
  · intro p u m0 now
    cases u
    rfl
  · exact mergeUpdate_metadata
/-! ### C2 -/

/-- One rail check of `_validatePowerDraw` produces no error when the
rail is absent or a number in `[0, 500]`. -/
theorem powerRailErrors_obj_ok (pd : List (String × JsVal)) (r : String) (h : railOk pd r) :
    powerRailErrors (.obj pd) r = .ok [] := by
  rcases h with h | ⟨q, hq, hq0, hq5⟩
  · simp only [powerRailErrors, jsGet, h, jsOr, jsTruthy]
    norm_num
  · by_cases hz : q = 0
    · subst hz
      simp only [powerRailErrors, jsGet, hq, jsOr, jsTruthy]
      norm_num
    · have hd : decide (q = 0) = false := decide_eq_false hz
      simp only [powerRailErrors, jsGet, hq, jsOr, jsTruthy, hd, Bool.not_false, if_true]
      rw [if_neg (not_lt.mpr hq0), if_neg (not_lt.mpr hq5)]
      rfl

/-- The rail loop of `_validatePowerDraw` accumulates no errors when all
rails are in contract. -/
theorem railsErrors_all_ok (pd : List (String × JsVal)) (rails : List String)
    (h : ∀ r ∈ rails, railOk pd r) : railsErrors (.obj pd) rails = .ok [] := by
  induction rails with
  | nil => rfl
  | cons r rs ih =>
    rw [railsErrors, powerRailErrors_obj_ok pd r (h r (by simp)),
      ih (fun r hr => h r (by simp [hr]))]
    rfl

/-- `_validatePowerDraw` accepts a power-draw object whose three rails
are each absent or in `[0, 500]`. -/
theorem validatePowerDraw_obj_ok (pd : List (String × JsVal))
    (h12 : railOk pd "+12V") (hm12 : railOk pd "-12V") (h5 : railOk pd "+5V") :
    _validatePowerDraw initStandards (.obj pd) = .ok { isValid := true, errors := [] } := by
  have hall : ∀ r ∈ initStandards.powerConnectors, railOk pd r := by
    intro r hr
    simp only [initStandards, List.mem_cons, List.mem_singleton] at hr
    rcases hr with rfl | rfl | rfl | hr
    · exact h12
    · exact hm12
    · exact h5
    · cases hr
  rw [_validatePowerDraw, railsErrors_all_ok pd _ hall]
  rfl

/-- A required numeric field with a value in `[min, max]` passes with no
errors. -/
theorem validateFieldM_num_ok (key : String) (mn mx q : ℚ) (h1 : mn ≤ q) (h2 : q ≤ mx) :
    validateFieldM { required := true, type := some "number", min := some mn, max := some mx }
      key (.num q) = .ok [] := by
  have d1 : decide (q < mn) = false := decide_eq_false (not_lt.mpr h1)
  have d2 : decide (mx < q) = false := decide_eq_false (not_lt.mpr h2)
  simp [validateFieldM, isNullish, jsTypeof, jsNumLt, jsNumGt, d1, d2]

/-- C2: every module spec of the documented shape with width in [2, 42],
height in [100, 150], depth in [20, 45] and each supplied power-rail draw
a number in [0, 500] is accepted: validation returns a result object with
an empty error list (regardless of the other fields). -/
theorem c2_in_range_spec_accepted
    (n : String) (w h d : ℚ) (pd : List (String × JsVal))
    (cs : Option (List Control)) (im : Option (List String)) (hw vc : JsVal)
    (hw1 : 2 ≤ w) (hw2 : w ≤ 42) (hh1 : 100 ≤ h) (hh2 : h ≤ 150)
    (hd1 : 20 ≤ d) (hd2 : d ≤ 45)
    (h12 : railOk pd "+12V") (hm12 : railOk pd "-12V") (h5 : railOk pd "+5V") :
    _validateModuleSpec initStandards
      { name := .str n, width := .num w, height := .num h, depth := .num d,
        powerDraw := .obj pd, controls := cs, images := im,
        hpWidth := hw, volumeCm3 := vc }
      = .ok { isValid := true, errors := [] } := by
  have hname : validateFieldM
      { required := true, type := some "string", minLength := some 1, maxLength := some 50 }
      "name" (.str n) = .ok [] := rfl
  have hwidth := validateFieldM_num_ok "width" 2 42 w hw1 hw2
  have hheight := validateFieldM_num_ok "height" 100 150 h hh1 hh2
  have hdepth := validateFieldM_num_ok "depth" 20 45 d hd1 hd2
  have hpower : validateFieldM { validator := some (_validatePowerDraw initStandards) }
      "powerDraw" (.obj pd) = .ok [] := by
    simp [validateFieldM, isNullish, validatePowerDraw_obj_ok pd h12 hm12 h5]
  simp [_validateModuleSpec, _moduleSchema, collectFieldErrors, ModuleSpecInput.get,
    hname, hwidth, hheight, hdepth, hpower]

/-- C2 witness: a concrete in-range spec is accepted. -/
theorem c2_witness :
    _validateModuleSpec initStandards demoAcceptedSpec =
      .ok { isValid := true, errors := [] } := by
  have h := c2_in_range_spec_accepted "Mixer" 10 110 30 [("+12V", JsVal.num 120)]
    none none .undefined .undefined
    (by norm_num) (by norm_num) (by norm_num) (by norm_num) (by norm_num) (by norm_num)
    (Or.inr ⟨120, rfl, by norm_num, by norm_num⟩)
    (Or.inl rfl) (Or.inl rfl)
  exact h

/-! ### C5 -/

/-- C5: re-deriving the percentage coordinates from the 3D position of
any placed control recovers the original `(x%, y%)` exactly over `ℚ`. -/
theorem c5_projection_roundtrip (m : Module) (c : Control) (mesh : Mesh)
    (hw : 0 < m.width) (hh : 0 < m.height)
    (hx0 : 0 ≤ c.x) (hx1 : c.x ≤ 100) (hy0 : 0 ≤ c.y) (hy1 : c.y ≤ 100)
    (hmesh : controlMesh initStandards m c = some mesh) :
    recoverXPct mesh.position.1 ((m.width : ℚ) * initStandards.hpUnit) = c.x ∧
    recoverYPct mesh.position.2.1 (m.height : ℚ) = c.y := by
  have hw0 : (0:ℚ) < (m.width : ℚ) := by exact_mod_cast hw
  have hu0 : (0:ℚ) < initStandards.hpUnit := by norm_num [initStandards]
  have hwq : ((m.width : ℚ) * initStandards.hpUnit) ≠ 0 := ne_of_gt (mul_pos hw0 hu0)
  have hhq : ((m.height : ℚ)) ≠ 0 := by
    have h0 : (0:ℚ) < (m.height : ℚ) := by exact_mod_cast hh
    exact ne_of_gt h0
  unfold controlMesh at hmesh
  split_ifs at hmesh <;>
    first
      | (cases hmesh
         exact ⟨recover_projPosX _ _ hwq, recover_projPosY _ _ hhq⟩)
      | exact Option.noConfusion hmesh

/-- C5 witness: the knob at (25, 75) on a 4 HP module round-trips. -/
theorem c5_witness :
    recoverXPct rtMesh.position.1 ((rtModule.width : ℚ) * initStandards.hpUnit) = rtControl.x ∧
    recoverYPct rtMesh.position.2.1 (rtModule.height : ℚ) = rtControl.y := by
  refine c5_projection_roundtrip rtModule rtControl rtMesh ?_ ?_ ?_ ?_ ?_ ?_ ?_
  · norm_num [rtModule]
  · norm_num [rtModule]
  · norm_num [rtControl]
  · norm_num [rtControl]
  · norm_num [rtControl]
  · norm_num [rtControl]
  · with_unfolding_all rfl

/-! ### C8 witness -/

/-- C8 witness: on a concrete accepted spec, `createModule` yields the
expected record and its derived `hpWidth` is recomputed as
`width × 5.08`. -/
theorem c8_witness :
    createModule initStandards demoAcceptedSpec = some demoModule ∧
    demoModule.hpWidth = (demoModule.width : ℚ) * initStandards.hpUnit := by
  have h : createModule initStandards demoAcceptedSpec = some demoModule := by
    with_unfolding_all rfl
  exact ⟨h, (c8_derived_fields_recomputed.2.1 initStandards demoAcceptedSpec demoModule h).1⟩

end ThreeDRack
